import Mathlib

/-!
Verification of the `proxy` repository (`src/server.js`), a single-endpoint
streaming relay in front of the ElevenLabs text-to-speech API.

The development shallowly embeds the request handlers of `server.js`:

* `requireSecret` embeds the function of the same name (server.js lines 24-34);
* `healthResponse` embeds the `GET /health` route (lines 36-43);
* `handleTts` embeds the `POST /eleven/tts` route (lines 66-202).

Express responses are modelled as a status code together with either a JSON
body (`TtsResult.jsonRes`, one `res.status(s).json(j)` call) or a streamed
body (`TtsResult.stream`, the chunk-by-chunk copy loop of lines 185-191;
`TtsResult.streamAborted` when an exception interrupts the copy loop after the
headers were committed by a first `res.write`, in which case the outer catch's
attempt to write a JSON error throws inside `res.status` and is swallowed by
the inner catch of lines 196-200; a rejection on the very first read, before
any write, leaves the headers unsent and yields the ordinary 500 `proxy_error`
JSON instead).

The upstream `fetch` is modelled by passing the environment's answer
(`FetchOutcome`) as an argument; the `sent` component of `TtsOutcome` records
whether the single `fetch` call of line 116 was reached, and with which
request, so "no upstream call is made" is the statement `sent = none`.

JavaScript string primitives used by the route are embedded as executable
functions over `List Char`: `jsTrim` (`String.prototype.trim` on the ASCII
whitespace actually exercised here), `jsSlice` (`s.slice(0, n)`), `jsToLower`
(`toLowerCase`, ASCII range), `strIncludes` (`String.prototype.includes`) and
`encodeURIComponent` (percent-encoding of the UTF-8 bytes of every character
outside the unreserved set `A-Z a-z 0-9 - _ . ! ~ * ' ( )`).
-/

/-- JavaScript `String.prototype.trim` on the leading/trailing whitespace
characters relevant here (space, tab, carriage return, line feed). -/
def jsTrim (s : String) : String :=
  ⟨((s.data.dropWhile Char.isWhitespace).reverse.dropWhile Char.isWhitespace).reverse⟩

/-- JavaScript `s.slice(0, n)`: the prefix of at most `n` characters. -/
def jsSlice (s : String) (n : Nat) : String :=
  ⟨s.data.take n⟩

/-- JavaScript `s.toLowerCase()` (ASCII range, which covers the
`content-type` values compared against "audio/"). -/
def jsToLower (s : String) : String :=
  ⟨s.data.map Char.toLower⟩

/-- Does `pat` occur at the head of the character list? -/
def charsPre : List Char → List Char → Bool
  | [], _ => true
  | _ :: _, [] => false
  | p :: ps, c :: cs => p == c && charsPre ps cs

/-- Does `pat` occur anywhere in the character list? -/
def charsIncl (pat : List Char) : List Char → Bool
  | [] => charsPre pat []
  | c :: rest => charsPre pat (c :: rest) || charsIncl pat rest

/-- JavaScript `hay.includes(pat)`. -/
def strIncludes (hay pat : String) : Bool :=
  charsIncl pat.data hay.data

/-- Characters `encodeURIComponent` leaves unescaped:
alphanumerics and `- _ . ! ~ * ' ( )`. -/
def isUriUnreserved (c : Char) : Bool :=
  c.isAlphanum || c == '-' || c == '_' || c == '.' || c == '!' || c == '~' ||
    c == '*' || c == Char.ofNat 39 || c == '(' || c == ')'

/-- Upper-case hexadecimal digit for `n < 16`. -/
def hexDigitChar (n : Nat) : Char :=
  if n < 10 then Char.ofNat (48 + n) else Char.ofNat (55 + n)

/-- Percent-encode one character as the `%XX` escapes of its UTF-8 bytes. -/
def pctEncodeChar (c : Char) : String :=
  String.join (((String.singleton c).toUTF8.toList).map (fun b =>
    let n := b.toNat
    "%" ++ String.singleton (hexDigitChar (n / 16)) ++ String.singleton (hexDigitChar (n % 16))))

/-- JavaScript `encodeURIComponent` (server.js line 92). -/
def encodeURIComponent (s : String) : String :=
  String.join (s.data.map (fun c =>
    if isUriUnreserved c then String.singleton c else pctEncodeChar c))

/-- JSON values, as produced by the route's `res.json(...)` calls and the
outbound `JSON.stringify` payload. -/
inductive Json where
  | null
  | bool (b : Bool)
  | num (q : Rat)
  | str (s : String)
  | obj (fields : List (String × Json))

/-- Field lookup in a JSON object (first binding wins), used to state which
fields a response body carries. -/
def assocLookup : List (String × Json) → String → Option Json
  | [], _ => none
  | (k, v) :: rest, key => if k = key then some v else assocLookup rest key

/-- The value of field `k` when the JSON value is an object. -/
def Json.field : Json → String → Option Json
  | .obj fs, k => assocLookup fs k
  | _, _ => none

/-- The keys of a JSON object, in order. -/
def Json.keys : Json → List String
  | .obj fs => fs.map Prod.fst
  | _ => []

/-- Process-wide configuration, populated once at startup
(server.js lines 13-18): `ELEVEN_API_KEY`, `ELEVEN_BASE_URL` (already trimmed
with trailing slashes removed) and `ELEVEN_PROXY_SECRET`, each already
trimmed, with `""` meaning "not configured". -/
structure Config where
  elevenApiKey : String
  elevenBaseUrl : String
  proxySecret : String

/-- The JSON body of `POST /eleven/tts` (server.js lines 74-83). `none`
models an absent property, which the destructuring defaults replace. -/
structure TtsBody where
  text : Option String := none
  voiceId : Option String := none
  modelId : Option String := none
  languageCode : Option String := none
  stability : Option Rat := none
  similarityBoost : Option Rat := none
  style : Option Rat := none
  useSpeakerBoost : Option Bool := none

/-- `req.body || {}` when the body is absent. -/
def emptyTtsBody : TtsBody := {}

/-- The single outbound `fetch` request of server.js lines 116-126. -/
structure UpstreamRequest where
  method : String
  url : String
  redirect : String
  headers : List (String × String)
  body : Json

/-- The upstream `fetch` response as the route observes it:
status, the two headers it reads, the `r.text()` result (`none` when that
read rejects, in which case the `.catch` of lines 145/161 substitutes `""`),
the `r.body` chunk sequence (`none` when the body object is absent),
whether `reader.read()` rejects — `streamThrows = some msg` means the read
after the last delivered chunk rejects with message `msg` — and the
`r.arrayBuffer()` contents used on the body-less fallback path. -/
structure UpstreamResponse where
  status : Nat
  location : Option String
  contentType : Option String
  bodyText : Option String
  bodyChunks : Option (List (List Nat))
  streamThrows : Option String
  bufferedBytes : List Nat

/-- Outcome of the `await fetch(...)` of line 116: either the promise
rejected with an error message, or a response arrived. -/
inductive FetchOutcome where
  | threw (message : String)
  | ok (r : UpstreamResponse)

/-- The caller-facing result of one `POST /eleven/tts` request. -/
inductive TtsResult where
  | jsonRes (status : Nat) (body : Json)
  | stream (status : Nat) (headers : List (String × String))
      (writes : List (List Nat)) (ended : Bool)
  | streamAborted (status : Nat) (headers : List (String × String))
      (writes : List (List Nat))

/-- A handled request: the response plus the outbound request, if any
(`none` = the `fetch` of line 116 was never reached). -/
structure TtsOutcome where
  result : TtsResult
  sent : Option UpstreamRequest

def badSecretJson : Json :=
  .obj [("ok", .bool false), ("error", .str "bad_secret")]

def noElevenKeyJson : Json :=
  .obj [("ok", .bool false), ("error", .str "no_eleven_key")]

def emptyTextJson : Json :=
  .obj [("ok", .bool false), ("error", .str "empty_text")]

def noVoiceIdJson : Json :=
  .obj [("ok", .bool false), ("error", .str "no_voiceId")]

/-- Body of the redirect-blocked response (server.js lines 135-140);
`location: null` when the upstream sent no `Location` header. -/
def elevenRedirectJson (status : Nat) (loc : Option String) : Json :=
  .obj [("ok", .bool false), ("error", .str "eleven_redirect"),
        ("status", .num status),
        ("location", match loc with | some l => .str l | none => .null)]

/-- Body of the non-2xx upstream failure response (lines 150-155). -/
def elevenFailedJson (status : Nat) (bodySnippet : String) : Json :=
  .obj [("ok", .bool false), ("error", .str "eleven_failed"),
        ("status", .num status), ("body", .str bodySnippet)]

/-- Body of the content-type rejection response (lines 166-171). -/
def badContentTypeJson (ct bodySnippet : String) : Json :=
  .obj [("ok", .bool false), ("error", .str "bad_content_type"),
        ("contentType", .str ct), ("body", .str bodySnippet)]

/-- Body of the outer-catch response (line 197). -/
def proxyErrorJson (message : String) : Json :=
  .obj [("ok", .bool false), ("error", .str "proxy_error"),
        ("message", .str message)]

/-- `requireSecret` (server.js lines 24-34): `none` = admitted, `some (s, j)`
= the 401 rejection it wrote. The supplied header is coerced from a possibly
absent value with `String(... || "")` and trimmed before comparison. -/
def requireSecret (cfg : Config) (secretHeader : Option String) : Option (Nat × Json) :=
  if cfg.proxySecret = "" then none
  else
    let got := jsTrim (secretHeader.getD "")
    if got = cfg.proxySecret then none else some (401, badSecretJson)

/-- The `GET /health` route (server.js lines 36-43): `res.json` answers with
the default status 200. It never consults `requireSecret` or the secret
header, which is why this embedding takes only the configuration. -/
def healthResponse (cfg : Config) : Nat × Json :=
  (200, .obj [("ok", .bool true),
              ("service", .str "eleven-proxy"),
              ("hasElevenKey", .bool (cfg.elevenApiKey != "")),
              ("baseUrl", .str cfg.elevenBaseUrl)])

/-- The outbound URL of server.js lines 92-94. -/
def ttsUrl (cfg : Config) (cleanVoiceId : String) : String :=
  cfg.elevenBaseUrl ++ "/v1/text-to-speech/" ++ encodeURIComponent cleanVoiceId
    ++ "/stream?output_format=mp3_44100_128"

/-- The outbound JSON payload of server.js lines 96-106, with the
destructuring defaults of lines 77-82 applied. -/
def ttsPayload (b : TtsBody) (cleanText : String) : Json :=
  .obj [("text", .str cleanText),
        ("model_id", .str (b.modelId.getD "eleven_multilingual_v2")),
        ("language_code", .str (b.languageCode.getD "ru")),
        ("voice_settings", .obj
          [("stability", .num (b.stability.getD (7 / 10))),
           ("similarity_boost", .num (b.similarityBoost.getD (4 / 5))),
           ("style", .num (b.style.getD (1 / 10))),
           ("use_speaker_boost", .bool (b.useSpeakerBoost.getD true))])]

/-- The single outbound `fetch` request of server.js lines 116-126:
POST, redirect-following disabled (`redirect: "manual"`), the four headers
of lines 119-124, and the `JSON.stringify`-ed payload. -/
def ttsRequest (cfg : Config) (b : TtsBody) (cleanText cleanVoiceId : String) :
    UpstreamRequest :=
  { method := "POST"
    url := ttsUrl cfg cleanVoiceId
    redirect := "manual"
    headers := [("xi-api-key", cfg.elevenApiKey),
                ("Content-Type", "application/json"),
                ("Accept", "audio/mpeg"),
                ("User-Agent", "bottut-eleven-proxy/1.0")]
    body := ttsPayload b cleanText }

/-- Response gating and streaming (server.js lines 128-191), in source
order: the redirect block, the `!r.ok` block, the content-type block, then
the committed 200 `audio/mpeg` stream. `r.ok` is `fetch`'s
"status in the range 200-299".

Express flushes the response headers on the first `res.write` (line 189),
not at `res.status`/`res.setHeader` (lines 175-178). So when `reader.read()`
rejects, what the caller sees depends on whether a chunk was already
written: after at least one write the headers are committed, the exception
lands in the outer catch and `res.status(500).json` (line 197) itself
throws, swallowed by the inner catch — the caller keeps the truncated
stream (`streamAborted`). If the very first read rejects, nothing was
written, the headers are still unsent and the 500 `proxy_error` JSON of
line 197 is delivered. -/
def gateAndStream (r : UpstreamResponse) : TtsResult :=
  if 300 ≤ r.status ∧ r.status < 400 then
    .jsonRes 502 (elevenRedirectJson r.status r.location)
  else if ¬ (200 ≤ r.status ∧ r.status < 300) then
    .jsonRes 502 (elevenFailedJson r.status (jsSlice ((r.bodyText.getD "")) 400))
  else
    let ct := jsToLower (r.contentType.getD "")
    if strIncludes ct "audio/" = false then
      .jsonRes 502 (badContentTypeJson ct (jsSlice ((r.bodyText.getD "")) 250))
    else
      match r.bodyChunks with
      | none =>
        .stream 200 [("Content-Type", "audio/mpeg"), ("Cache-Control", "no-store")]
          [r.bufferedBytes] true
      | some chunks =>
        match r.streamThrows with
        | none =>
          .stream 200 [("Content-Type", "audio/mpeg"), ("Cache-Control", "no-store")]
            chunks true
        | some msg =>
          match chunks with
          | [] =>
            .jsonRes 500 (proxyErrorJson msg)
          | c :: rest =>
            .streamAborted 200 [("Content-Type", "audio/mpeg"), ("Cache-Control", "no-store")]
              (c :: rest)

/-- What happens from the `await fetch` on: a rejected promise lands in the
outer catch (line 197, headers not yet sent, so the 500 JSON succeeds);
otherwise the response is gated and streamed. -/
def relayOutcome (u : FetchOutcome) : TtsResult :=
  match u with
  | .threw msg => .jsonRes 500 (proxyErrorJson msg)
  | .ok r => gateAndStream r

/-- The `POST /eleven/tts` route (server.js lines 66-202), with the
environment's answer to the single `fetch` passed as `upstream`. -/
def handleTts (cfg : Config) (secretHeader : Option String)
    (reqBody : Option TtsBody) (upstream : FetchOutcome) : TtsOutcome :=
  match requireSecret cfg secretHeader with
  | some sj => { result := .jsonRes sj.1 sj.2, sent := none }
  | none =>
    if cfg.elevenApiKey = "" then
      { result := .jsonRes 500 noElevenKeyJson, sent := none }
    else
      let b := reqBody.getD emptyTtsBody
      let cleanText := jsTrim (b.text.getD "")
      let cleanVoiceId := jsTrim (b.voiceId.getD "")
      if cleanText = "" then
        { result := .jsonRes 400 emptyTextJson, sent := none }
      else if cleanVoiceId = "" then
        { result := .jsonRes 400 noVoiceIdJson, sent := none }
      else
        { result := relayOutcome upstream,
          sent := some (ttsRequest cfg b cleanText cleanVoiceId) }

/-- The request got past the access guard, the key check and input
validation, i.e. the `fetch` of line 116 is reached. -/
def passesPreflight (cfg : Config) (secretHeader : Option String)
    (reqBody : Option TtsBody) : Prop :=
  (requireSecret cfg secretHeader).isNone = true ∧
  cfg.elevenApiKey ≠ "" ∧
  jsTrim ((reqBody.getD emptyTtsBody).text.getD "") ≠ "" ∧
  jsTrim ((reqBody.getD emptyTtsBody).voiceId.getD "") ≠ ""

instance (cfg : Config) (hdr : Option String) (b : Option TtsBody) :
    Decidable (passesPreflight cfg hdr b) := by
  unfold passesPreflight
  infer_instance

/-- After the access guard, the key check and input validation all pass,
the handler's answer is the relay outcome of the upstream call, and exactly
the request built on lines 92-126 is sent. -/
theorem handleTts_preflight (cfg : Config) (hdr : Option String) (b : Option TtsBody)
    (u : FetchOutcome) (h : passesPreflight cfg hdr b) :
    handleTts cfg hdr b u
      = { result := relayOutcome u,
          sent := some (ttsRequest cfg (b.getD emptyTtsBody)
                          (jsTrim ((b.getD emptyTtsBody).text.getD ""))
                          (jsTrim ((b.getD emptyTtsBody).voiceId.getD ""))) } := by
  obtain ⟨h1, h2, h3, h4⟩ := h
  rw [Option.isNone_iff_eq_none] at h1
  simp [handleTts, h1, h2, h3, h4]

/-- When a secret is configured and the trimmed supplied header differs from
it, `requireSecret` rejects with the 401 `bad_secret` response. -/
theorem requireSecret_reject (cfg : Config) (hdr : Option String)
    (hcfg : cfg.proxySecret ≠ "") (hne : jsTrim (hdr.getD "") ≠ cfg.proxySecret) :
    requireSecret cfg hdr = some (401, badSecretJson) := by
  simp [requireSecret, hcfg, hne]

/-- C1: for every `POST /eleven/tts` request, if a shared secret is
configured and the trimmed `x-proxy-secret` header differs from it
(including the absent-header case, whose coerced value `""` differs from any
configured secret), the response is 401 with body
`{ok:false, error:"bad_secret"}`, no upstream call is made (`sent = none`),
and nothing else happens: the outcome is the same for every request body and
every upstream behaviour. -/
theorem C1_secret_enforcement (cfg : Config) (hdr : Option String)
    (b : Option TtsBody) (u : FetchOutcome)
    (hcfg : cfg.proxySecret ≠ "") (hne : jsTrim (hdr.getD "") ≠ cfg.proxySecret) :
    handleTts cfg hdr b u = { result := .jsonRes 401 badSecretJson, sent := none } := by
  simp [handleTts, requireSecret_reject cfg hdr hcfg hne]

theorem C1_witness :
    (⟨"key", "https://api.elevenlabs.io", "s3cret"⟩ : Config).proxySecret ≠ "" ∧
    jsTrim ((some "wrong" : Option String).getD "") ≠
      (⟨"key", "https://api.elevenlabs.io", "s3cret"⟩ : Config).proxySecret ∧
    handleTts ⟨"key", "https://api.elevenlabs.io", "s3cret"⟩ (some "wrong")
        (some { text := some "hi", voiceId := some "v1" }) (.threw "unused")
      = { result := .jsonRes 401 badSecretJson, sent := none } :=
  ⟨by decide, by decide,
   C1_secret_enforcement ⟨"key", "https://api.elevenlabs.io", "s3cret"⟩ (some "wrong")
     (some { text := some "hi", voiceId := some "v1" }) (.threw "unused")
     (by decide) (by decide)⟩

/-- C2: for every upstream response with status in [300,400), the caller
receives 502 with body `{ok:false, error:"eleven_redirect", status,
location}` (location null when the header is absent); the result is a pure
JSON response built only from the status and `Location` header, so no byte
of the upstream body is forwarded. -/
theorem C2_redirect_blocked (cfg : Config) (hdr : Option String)
    (b : Option TtsBody) (r : UpstreamResponse)
    (h : passesPreflight cfg hdr b) (hst : 300 ≤ r.status ∧ r.status < 400) :
    (handleTts cfg hdr b (.ok r)).result
      = .jsonRes 502 (elevenRedirectJson r.status r.location) := by
  rw [handleTts_preflight cfg hdr b _ h]
  simp [relayOutcome, gateAndStream, hst]

theorem C2_witness :
    (handleTts ⟨"key", "https://api.elevenlabs.io", "s3cret"⟩ (some "s3cret")
        (some { text := some "hi", voiceId := some "v1" })
        (.ok { status := 302, location := some "http://evil.example",
               contentType := some "text/html",
               bodyText := some "<html>redirect page</html>", bodyChunks := none,
               streamThrows := none, bufferedBytes := [] })).result
      = .jsonRes 502 (elevenRedirectJson 302 (some "http://evil.example")) :=
  C2_redirect_blocked ⟨"key", "https://api.elevenlabs.io", "s3cret"⟩ (some "s3cret")
    (some { text := some "hi", voiceId := some "v1" })
    { status := 302, location := some "http://evil.example",
      contentType := some "text/html",
      bodyText := some "<html>redirect page</html>", bodyChunks := none,
      streamThrows := none, bufferedBytes := [] }
    (by decide) (by decide)

/-- C3: for every upstream response with a success status (in [200,300))
whose lower-cased `Content-Type` does not contain "audio/", the caller
receives 502 with body `{ok:false, error:"bad_content_type", contentType,
body:<prefix>}`; the `body` field is a prefix of the upstream body text of
at most 250 characters, and the result is never a 200 audio stream. -/
theorem C3_content_type_gate (cfg : Config) (hdr : Option String)
    (b : Option TtsBody) (r : UpstreamResponse)
    (h : passesPreflight cfg hdr b) (hok : 200 ≤ r.status ∧ r.status < 300)
    (hct : strIncludes (jsToLower (r.contentType.getD "")) "audio/" = false) :
    (handleTts cfg hdr b (.ok r)).result
      = .jsonRes 502 (badContentTypeJson (jsToLower (r.contentType.getD ""))
          (jsSlice (r.bodyText.getD "") 250))
    ∧ (jsSlice (r.bodyText.getD "") 250).data <+: (r.bodyText.getD "").data
    ∧ (jsSlice (r.bodyText.getD "") 250).length ≤ 250 := by
  have hnr : ¬ (300 ≤ r.status ∧ r.status < 400) :=
    fun hc => absurd hc.1 (Nat.not_le.mpr hok.2)
  refine ⟨?_, ?_, ?_⟩
  · rw [handleTts_preflight cfg hdr b _ h]
    simp [relayOutcome, gateAndStream, hnr, hok, hct]
  · exact ⟨(r.bodyText.getD "").data.drop 250, List.take_append_drop 250 _⟩
  · show ((r.bodyText.getD "").data.take 250).length ≤ 250
    rw [List.length_take]
    exact Nat.min_le_left _ _

theorem C3_witness :
    (handleTts ⟨"key", "https://api.elevenlabs.io", "s3cret"⟩ (some "s3cret")
        (some { text := some "hi", voiceId := some "v1" })
        (.ok { status := 200, location := none, contentType := some "text/html",
               bodyText := some "<html>error</html>", bodyChunks := none,
               streamThrows := none, bufferedBytes := [] })).result
      = .jsonRes 502 (badContentTypeJson (jsToLower "text/html")
          (jsSlice "<html>error</html>" 250))
    ∧ (jsSlice "<html>error</html>" 250).data <+: "<html>error</html>".data
    ∧ (jsSlice "<html>error</html>" 250).length ≤ 250 :=
  C3_content_type_gate ⟨"key", "https://api.elevenlabs.io", "s3cret"⟩ (some "s3cret")
    (some { text := some "hi", voiceId := some "v1" })
    { status := 200, location := none, contentType := some "text/html",
      bodyText := some "<html>error</html>", bodyChunks := none,
      streamThrows := none, bufferedBytes := [] }
    (by decide) (by decide) (by decide)

/-- C4: for every upstream response whose status is neither in [300,400)
nor in [200,300), the caller receives 502 with body `{ok:false,
error:"eleven_failed", status, body:<prefix>}`; the `body` field is a
prefix of the upstream body text of at most 400 characters, so a
1000-character upstream error body is never returned in full. -/
theorem C4_upstream_failure_truncated (cfg : Config) (hdr : Option String)
    (b : Option TtsBody) (r : UpstreamResponse)
    (h : passesPreflight cfg hdr b)
    (hnr : ¬ (300 ≤ r.status ∧ r.status < 400))
    (hno : ¬ (200 ≤ r.status ∧ r.status < 300)) :
    (handleTts cfg hdr b (.ok r)).result
      = .jsonRes 502 (elevenFailedJson r.status (jsSlice (r.bodyText.getD "") 400))
    ∧ (jsSlice (r.bodyText.getD "") 400).data <+: (r.bodyText.getD "").data
    ∧ (jsSlice (r.bodyText.getD "") 400).length ≤ 400 := by
  refine ⟨?_, ?_, ?_⟩
  · rw [handleTts_preflight cfg hdr b _ h]
    simp [relayOutcome, gateAndStream, hnr, hno]
  · exact ⟨(r.bodyText.getD "").data.drop 400, List.take_append_drop 400 _⟩
  · show ((r.bodyText.getD "").data.take 400).length ≤ 400
    rw [List.length_take]
    exact Nat.min_le_left _ _

/-- A 1000-character upstream error body, for the C4 witness. -/
def longErrorBody : String := ⟨List.replicate 1000 'x'⟩

theorem C4_witness :
    (handleTts ⟨"key", "https://api.elevenlabs.io", "s3cret"⟩ (some "s3cret")
        (some { text := some "hi", voiceId := some "v1" })
        (.ok { status := 500, location := none, contentType := some "application/json",
               bodyText := some longErrorBody, bodyChunks := none,
               streamThrows := none, bufferedBytes := [] })).result
      = .jsonRes 502 (elevenFailedJson 500 (jsSlice longErrorBody 400))
    ∧ (jsSlice longErrorBody 400).data <+: longErrorBody.data
    ∧ (jsSlice longErrorBody 400).length ≤ 400 :=
  C4_upstream_failure_truncated ⟨"key", "https://api.elevenlabs.io", "s3cret"⟩ (some "s3cret")
    (some { text := some "hi", voiceId := some "v1" })
    { status := 500, location := none, contentType := some "application/json",
      bodyText := some longErrorBody, bodyChunks := none,
      streamThrows := none, bufferedBytes := [] }
    (by decide) (by decide) (by decide)

/-- C5: for every upstream response passing all three gates (not a
redirect, success status in [200,300), content type containing "audio/"),
with no mid-stream exception, the caller receives status 200 with headers
`Content-Type: audio/mpeg` and `Cache-Control: no-store`; the writes are
exactly the upstream chunks in order (so their concatenation is the
byte-for-byte upstream body, nothing dropped, reordered or duplicated) and
the caller stream is ended (`true`) only after the final chunk; when the
upstream body object is absent, the single write is the buffered payload. -/
theorem C5_streaming_fidelity (cfg : Config) (hdr : Option String)
    (b : Option TtsBody) (r : UpstreamResponse)
    (h : passesPreflight cfg hdr b) (hok : 200 ≤ r.status ∧ r.status < 300)
    (hct : strIncludes (jsToLower (r.contentType.getD "")) "audio/" = true)
    (hnt : r.streamThrows = none) :
    (handleTts cfg hdr b (.ok r)).result
      = .stream 200 [("Content-Type", "audio/mpeg"), ("Cache-Control", "no-store")]
          (match r.bodyChunks with | none => [r.bufferedBytes] | some cs => cs) true := by
  have hnr : ¬ (300 ≤ r.status ∧ r.status < 400) :=
    fun hc => absurd hc.1 (Nat.not_le.mpr hok.2)
  rw [handleTts_preflight cfg hdr b _ h]
  cases hcs : r.bodyChunks with
  | none => simp [relayOutcome, gateAndStream, hnr, hok, hct, hcs]
  | some cs => simp [relayOutcome, gateAndStream, hnr, hok, hct, hcs, hnt]

theorem C5_witness :
    (handleTts ⟨"key", "https://api.elevenlabs.io", "s3cret"⟩ (some "s3cret")
        (some { text := some "hi", voiceId := some "v1" })
        (.ok { status := 200, location := none, contentType := some "audio/mpeg",
               bodyText := none, bodyChunks := some [[1, 2, 3], [], [4], [5, 6]],
               streamThrows := none, bufferedBytes := [] })).result
      = .stream 200 [("Content-Type", "audio/mpeg"), ("Cache-Control", "no-store")]
          [[1, 2, 3], [], [4], [5, 6]] true :=
  C5_streaming_fidelity ⟨"key", "https://api.elevenlabs.io", "s3cret"⟩ (some "s3cret")
    (some { text := some "hi", voiceId := some "v1" })
    { status := 200, location := none, contentType := some "audio/mpeg",
      bodyText := none, bodyChunks := some [[1, 2, 3], [], [4], [5, 6]],
      streamThrows := none, bufferedBytes := [] }
    (by decide) (by decide) (by decide) (by decide)

/-- C6 counterexample: the claim asserts the `empty_text` rejection also
when the upstream credential is not configured, but server.js checks
`ELEVEN_API_KEY` (line 70) before input validation (line 88). At the
concrete admitted request with no `text` and an unconfigured key, the
response is 500 `no_eleven_key`, not 400 `empty_text`. -/
theorem C6_counterexample :
    (handleTts ⟨"", "https://api.elevenlabs.io", ""⟩ none
        (some { voiceId := some "v1" }) (.threw "unused")).result
      = .jsonRes 500 noElevenKeyJson
    ∧ (handleTts ⟨"", "https://api.elevenlabs.io", ""⟩ none
        (some { voiceId := some "v1" }) (.threw "unused")).result
      ≠ .jsonRes 400 emptyTextJson := by
  have h1 : (handleTts ⟨"", "https://api.elevenlabs.io", ""⟩ none
      (some { voiceId := some "v1" }) (.threw "unused")).result
        = .jsonRes 500 noElevenKeyJson := rfl
  refine ⟨h1, ?_⟩
  rw [h1]
  intro hcontra
  injection hcontra with hstat _
  exact absurd hstat (by omega)

/-- C6 (amended): for every admitted request, provided the upstream
credential is configured, a `text` field that trims to empty yields 400
`{ok:false, error:"empty_text"}`, and a non-empty trimmed `text` with a
`voiceId` trimming to empty yields 400 `{ok:false, error:"no_voiceId"}`;
in both cases no upstream call is made. -/
theorem C6_input_validation (cfg : Config) (hdr : Option String)
    (b : Option TtsBody) (u : FetchOutcome)
    (hsec : (requireSecret cfg hdr).isNone = true) (hkey : cfg.elevenApiKey ≠ "") :
    (jsTrim ((b.getD emptyTtsBody).text.getD "") = "" →
        handleTts cfg hdr b u = { result := .jsonRes 400 emptyTextJson, sent := none })
    ∧ (jsTrim ((b.getD emptyTtsBody).text.getD "") ≠ "" →
        jsTrim ((b.getD emptyTtsBody).voiceId.getD "") = "" →
        handleTts cfg hdr b u = { result := .jsonRes 400 noVoiceIdJson, sent := none }) := by
  rw [Option.isNone_iff_eq_none] at hsec
  constructor
  · intro ht
    simp [handleTts, hsec, hkey, ht]
  · intro ht hv
    simp [handleTts, hsec, hkey, ht, hv]

theorem C6_witness :
    (handleTts ⟨"key", "https://api.elevenlabs.io", ""⟩ none
        (some { voiceId := some "v1" }) (.threw "unused"))
      = { result := .jsonRes 400 emptyTextJson, sent := none }
    ∧ (handleTts ⟨"key", "https://api.elevenlabs.io", ""⟩ none
        (some { text := some "hi" }) (.threw "unused"))
      = { result := .jsonRes 400 noVoiceIdJson, sent := none } :=
  ⟨(C6_input_validation ⟨"key", "https://api.elevenlabs.io", ""⟩ none
      (some { voiceId := some "v1" }) (.threw "unused") (by decide) (by decide)).1
    (by decide),
   (C6_input_validation ⟨"key", "https://api.elevenlabs.io", ""⟩ none
      (some { text := some "hi" }) (.threw "unused") (by decide) (by decide)).2
    (by decide) (by decide)⟩

/-- C7: for every configuration, `GET /health` answers 200 (no secret is
consulted: `healthResponse` does not even take the header) with a JSON
object holding exactly the fields `ok:true`, `service`, the boolean
key-configured echo, and `baseUrl` echoing the configured upstream base
address. The source names the key-echo field `hasElevenKey`; the spec's
`hasUpstreamKey` is its provider-neutral name for the same field. -/
theorem C7_health (cfg : Config) :
    (healthResponse cfg).1 = 200
    ∧ ((healthResponse cfg).2).field "ok" = some (.bool true)
    ∧ ((healthResponse cfg).2).field "service" = some (.str "eleven-proxy")
    ∧ ((healthResponse cfg).2).field "hasElevenKey" = some (.bool (cfg.elevenApiKey != ""))
    ∧ ((healthResponse cfg).2).field "baseUrl" = some (.str cfg.elevenBaseUrl)
    ∧ ((healthResponse cfg).2).keys = ["ok", "service", "hasElevenKey", "baseUrl"] := by
  refine ⟨rfl, ?_, ?_, ?_, ?_, rfl⟩ <;>
    simp [healthResponse, Json.field, assocLookup]

/-- C8: for every admitted, validated request — whatever the upstream then
does — exactly one outbound request is recorded: POST to
`{base}/v1/text-to-speech/{encodeURIComponent(voiceId)}/stream?output_format=mp3_44100_128`
with redirect-following disabled (`redirect: "manual"`), headers carrying
the upstream credential (`xi-api-key`), `Content-Type: application/json` and
`Accept: audio/mpeg`, and a JSON body with fields `text`, `model_id`,
`language_code` and a nested `voice_settings` object carrying `stability`,
`similarity_boost`, `style` and `use_speaker_boost`. -/
theorem C8_upstream_request (cfg : Config) (hdr : Option String)
    (b : Option TtsBody) (u : FetchOutcome) (h : passesPreflight cfg hdr b) :
    (handleTts cfg hdr b u).sent
      = some { method := "POST"
               url := cfg.elevenBaseUrl ++ "/v1/text-to-speech/"
                        ++ encodeURIComponent (jsTrim ((b.getD emptyTtsBody).voiceId.getD ""))
                        ++ "/stream?output_format=mp3_44100_128"
               redirect := "manual"
               headers := [("xi-api-key", cfg.elevenApiKey),
                           ("Content-Type", "application/json"),
                           ("Accept", "audio/mpeg"),
                           ("User-Agent", "bottut-eleven-proxy/1.0")]
               body := .obj
                 [("text", .str (jsTrim ((b.getD emptyTtsBody).text.getD ""))),
                  ("model_id", .str ((b.getD emptyTtsBody).modelId.getD "eleven_multilingual_v2")),
                  ("language_code", .str ((b.getD emptyTtsBody).languageCode.getD "ru")),
                  ("voice_settings", .obj
                    [("stability", .num ((b.getD emptyTtsBody).stability.getD (7 / 10))),
                     ("similarity_boost", .num ((b.getD emptyTtsBody).similarityBoost.getD (4 / 5))),
                     ("style", .num ((b.getD emptyTtsBody).style.getD (1 / 10))),
                     ("use_speaker_boost", .bool ((b.getD emptyTtsBody).useSpeakerBoost.getD true))])] } := by
  rw [handleTts_preflight cfg hdr b u h]
  rfl

theorem C8_witness :
    (handleTts ⟨"key", "https://api.elevenlabs.io", "s3cret"⟩ (some "s3cret")
        (some { text := some "hi", voiceId := some "v1" }) (.threw "boom")).sent
      = some { method := "POST"
               url := "https://api.elevenlabs.io" ++ "/v1/text-to-speech/"
                        ++ encodeURIComponent (jsTrim ((some "v1").getD ""))
                        ++ "/stream?output_format=mp3_44100_128"
               redirect := "manual"
               headers := [("xi-api-key", "key"),
                           ("Content-Type", "application/json"),
                           ("Accept", "audio/mpeg"),
                           ("User-Agent", "bottut-eleven-proxy/1.0")]
               body := .obj
                 [("text", .str (jsTrim ((some "hi").getD ""))),
                  ("model_id", .str "eleven_multilingual_v2"),
                  ("language_code", .str "ru"),
                  ("voice_settings", .obj
                    [("stability", .num (7 / 10)),
                     ("similarity_boost", .num (4 / 5)),
                     ("style", .num (1 / 10)),
                     ("use_speaker_boost", .bool true)])] } :=
  C8_upstream_request ⟨"key", "https://api.elevenlabs.io", "s3cret"⟩ (some "s3cret")
    (some { text := some "hi", voiceId := some "v1" }) (.threw "boom") (by decide)

/-- C9: unexpected internal failures are caught at the outermost boundary.
If the `fetch` promise rejects, the handler answers 500
`{ok:false, error:"proxy_error", message}` (headers not yet sent). If the
stream read rejects after at least one chunk was written — the first
`res.write` (line 189) is what flushes the headers, so headers were already
sent and streaming had started — the attempt to write that JSON error
throws inside the outer catch and is suppressed by the inner catch: the
handler still returns a value (no crash) and the caller sees only the
already-written chunks, no JSON error. If instead the very first read
rejects before any write, the headers are still unsent and the same
outermost catch successfully delivers the 500 `proxy_error` JSON. -/
theorem C9_proxy_error_boundary (cfg : Config) (hdr : Option String)
    (b : Option TtsBody) (h : passesPreflight cfg hdr b) (msgF msgS msg0 : String)
    (r r0 : UpstreamResponse)
    (hok : 200 ≤ r.status ∧ r.status < 300)
    (hct : strIncludes (jsToLower (r.contentType.getD "")) "audio/" = true)
    (c : List Nat) (cs : List (List Nat))
    (hcs : r.bodyChunks = some (c :: cs)) (hthrow : r.streamThrows = some msgS)
    (hok0 : 200 ≤ r0.status ∧ r0.status < 300)
    (hct0 : strIncludes (jsToLower (r0.contentType.getD "")) "audio/" = true)
    (hcs0 : r0.bodyChunks = some []) (hthrow0 : r0.streamThrows = some msg0) :
    (handleTts cfg hdr b (.threw msgF)).result = .jsonRes 500 (proxyErrorJson msgF)
    ∧ (handleTts cfg hdr b (.ok r)).result
        = .streamAborted 200 [("Content-Type", "audio/mpeg"), ("Cache-Control", "no-store")]
            (c :: cs)
    ∧ (handleTts cfg hdr b (.ok r0)).result = .jsonRes 500 (proxyErrorJson msg0) := by
  have hnr : ¬ (300 ≤ r.status ∧ r.status < 400) :=
    fun hc => absurd hc.1 (Nat.not_le.mpr hok.2)
  have hnr0 : ¬ (300 ≤ r0.status ∧ r0.status < 400) :=
    fun hc => absurd hc.1 (Nat.not_le.mpr hok0.2)
  refine ⟨?_, ?_, ?_⟩
  · rw [handleTts_preflight cfg hdr b _ h]
    rfl
  · rw [handleTts_preflight cfg hdr b _ h]
    simp [relayOutcome, gateAndStream, hnr, hok, hct, hcs, hthrow]
  · rw [handleTts_preflight cfg hdr b _ h]
    simp [relayOutcome, gateAndStream, hnr0, hok0, hct0, hcs0, hthrow0]

theorem C9_witness :
    (handleTts ⟨"key", "https://api.elevenlabs.io", "s3cret"⟩ (some "s3cret")
        (some { text := some "hi", voiceId := some "v1" })
        (.threw "socket hang up")).result
      = .jsonRes 500 (proxyErrorJson "socket hang up")
    ∧ (handleTts ⟨"key", "https://api.elevenlabs.io", "s3cret"⟩ (some "s3cret")
        (some { text := some "hi", voiceId := some "v1" })
        (.ok { status := 200, location := none, contentType := some "audio/mpeg",
               bodyText := none, bodyChunks := some [[1, 2], [3]],
               streamThrows := some "read aborted", bufferedBytes := [] })).result
      = .streamAborted 200 [("Content-Type", "audio/mpeg"), ("Cache-Control", "no-store")]
          [[1, 2], [3]]
    ∧ (handleTts ⟨"key", "https://api.elevenlabs.io", "s3cret"⟩ (some "s3cret")
        (some { text := some "hi", voiceId := some "v1" })
        (.ok { status := 200, location := none, contentType := some "audio/mpeg",
               bodyText := none, bodyChunks := some [],
               streamThrows := some "read aborted early", bufferedBytes := [] })).result
      = .jsonRes 500 (proxyErrorJson "read aborted early") :=
  C9_proxy_error_boundary ⟨"key", "https://api.elevenlabs.io", "s3cret"⟩ (some "s3cret")
    (some { text := some "hi", voiceId := some "v1" }) (by decide)
    "socket hang up" "read aborted" "read aborted early"
    { status := 200, location := none, contentType := some "audio/mpeg",
      bodyText := none, bodyChunks := some [[1, 2], [3]],
      streamThrows := some "read aborted", bufferedBytes := [] }
    { status := 200, location := none, contentType := some "audio/mpeg",
      bodyText := none, bodyChunks := some [],
      streamThrows := some "read aborted early", bufferedBytes := [] }
    (by decide) (by decide) [1, 2] [[3]] (by decide) (by decide)
    (by decide) (by decide) (by decide) (by decide)

/-- C10: for every upstream success response with no `Content-Type` header
at all, `r.headers.get("content-type")` is null, `String(null || "")`
coerces it to `""`, which does not contain "audio/", so the response is the
same 502 `bad_content_type` rejection with `contentType: ""` — the
missing-header case is never forwarded as audio. -/
theorem C10_missing_content_type (cfg : Config) (hdr : Option String)
    (b : Option TtsBody) (r : UpstreamResponse)
    (h : passesPreflight cfg hdr b) (hok : 200 ≤ r.status ∧ r.status < 300)
    (hmiss : r.contentType = none) :
    (handleTts cfg hdr b (.ok r)).result
      = .jsonRes 502 (badContentTypeJson "" (jsSlice (r.bodyText.getD "") 250)) := by
  have hnr : ¬ (300 ≤ r.status ∧ r.status < 400) :=
    fun hc => absurd hc.1 (Nat.not_le.mpr hok.2)
  have hincl : strIncludes (jsToLower ((none : Option String).getD "")) "audio/" = false := by
    decide
  rw [handleTts_preflight cfg hdr b _ h]
  simp [relayOutcome, gateAndStream, hnr, hok, hmiss, hincl]
  rfl

theorem C10_witness :
    (handleTts ⟨"key", "https://api.elevenlabs.io", "s3cret"⟩ (some "s3cret")
        (some { text := some "hi", voiceId := some "v1" })
        (.ok { status := 200, location := none, contentType := none,
               bodyText := some "mystery payload", bodyChunks := none,
               streamThrows := none, bufferedBytes := [] })).result
      = .jsonRes 502 (badContentTypeJson "" (jsSlice "mystery payload" 250)) :=
  C10_missing_content_type ⟨"key", "https://api.elevenlabs.io", "s3cret"⟩ (some "s3cret")
    (some { text := some "hi", voiceId := some "v1" })
    { status := 200, location := none, contentType := none,
      bodyText := some "mystery payload", bodyChunks := none,
      streamThrows := none, bufferedBytes := [] }
    (by decide) (by decide) (by decide)
